import Mathlib

/-!
Shallow embedding of the GMP (grey-market premium) validation pipeline of the
`ipo` repository, together with theorems settling the frozen claims about it.

The embedded code lives in `backend/services/gmp_validator.py`
(class `GMPValidator`) and `backend/services/real_time_ipo_service.py`
(class `RealTimeIPOService`).  Numeric values are modelled by `ℚ` (the Python
code computes with floats; all claims are about exact arithmetic
relationships).  The z-score comparison `|v - mean| / std > t` of the source,
with `std = sqrt(variance)`, is embedded square-root-free as the equivalent
`(v - mean)^2 > t^2 * variance` (equivalent whenever `std > 0`, which is the
guard under which the source evaluates it; `std > 0` itself is embedded as
`variance > 0`).  Database queries are modelled by passing the queried record
list as an explicit argument, following the spec's
`validate(ipo_key, observations, now)` signature.
-/

set_option maxRecDepth 4000

namespace IPO

/-- Arithmetic mean of a list of rationals: `np.mean` / `statistics.mean`
(junk value `0` on the empty list, mirroring no source call site that
reaches it with an empty list). -/
def listMean (l : List ℚ) : ℚ := l.sum / l.length

/-- Population variance `np.var`: mean of squared deviations from the mean. -/
def npVar (l : List ℚ) : ℚ :=
  ((l.map fun v => (v - listMean l) ^ 2).sum) / l.length

/-- Weighted average `np.average(values, weights=weights)`:
`sum(values*weights) / sum(weights)`. -/
def npAverage (values weights : List ℚ) : ℚ :=
  ((values.zip weights).map fun p => p.1 * p.2).sum / weights.sum

/-- `np.percentile(values, q)` with the default linear interpolation:
sort, take position `(n-1)*q/100`, linearly interpolate between the two
neighbouring order statistics. -/
def npPercentile (values : List ℚ) (q : ℚ) : ℚ :=
  let s := List.insertionSort (· ≤ ·) values
  let pos := ((s.length : ℚ) - 1) * q / 100
  let i := (⌊pos⌋).toNat
  let lo := s.getD i 0
  let hi := s.getD (i + 1) lo
  lo + (pos - (i : ℚ)) * (hi - lo)

/-- Python's banker's rounding of a rational to an integer
(round half to even). -/
def roundHalfEven (x : ℚ) : ℤ :=
  if x - ⌊x⌋ < 1 / 2 then ⌊x⌋
  else if 1 / 2 < x - ⌊x⌋ then ⌊x⌋ + 1
  else if ⌊x⌋ % 2 = 0 then ⌊x⌋ else ⌊x⌋ + 1

/-- Python's `round(x, ndigits)` on exact rationals. -/
def pythonRound (x : ℚ) (ndigits : ℕ) : ℚ :=
  (roundHalfEven (x * 10 ^ ndigits) : ℚ) / 10 ^ ndigits

/-- `GMPValidator.min_sources`. -/
def min_sources : ℕ := 2

/-- `GMPValidator.max_variance_threshold`. -/
def max_variance_threshold : ℚ := 3 / 10

/-- `GMPValidator.outlier_threshold` (standard deviations). -/
def outlier_threshold : ℚ := 2

/-- `GMPValidator.source_weights` lookup with the `.get(source, 0.5)`
default used by `_calculate_validated_gmp`. -/
def source_weights (source : String) : ℚ :=
  if source = "chittorgarh" then 9 / 10
  else if source = "ipowatch" then 17 / 20
  else if source = "investorgain" then 4 / 5
  else if source = "applynse" then 3 / 4
  else if source = "nse" then 1
  else if source = "bse" then 1
  else 1 / 2

theorem source_weights_chittorgarh : source_weights "chittorgarh" = 9 / 10 := by
  simp [source_weights]

theorem source_weights_ipowatch : source_weights "ipowatch" = 17 / 20 := by
  simp [source_weights]

theorem source_weights_investorgain : source_weights "investorgain" = 4 / 5 := by
  simp [source_weights]

theorem source_weights_applynse : source_weights "applynse" = 3 / 4 := by
  simp [source_weights]

theorem source_weights_nse : source_weights "nse" = 1 := by
  simp [source_weights]

theorem source_weights_bse : source_weights "bse" = 1 := by
  simp [source_weights]

/-- The fields of a `GMPData` record that the validator reads. -/
structure GMPData where
  source : String
  gmp_value : ℚ
deriving DecidableEq, Repr

/-- `schemas.GMPValidationResult` as populated by the validator. -/
structure GMPValidationResult where
  ipo_id : ℤ
  validated_gmp : ℚ
  confidence_score : ℚ
  sources_count : ℕ
  is_reliable : Bool
  variance : ℚ
  outliers : List String
deriving DecidableEq, Repr

/-- The z-score pass of `GMPValidator._detect_outliers` (method 1): when
`std > 0` (embedded as `variance > 0`), collect the sources of all values
with `|v - mean|/std > outlier_threshold` (embedded square-root-free as
`(v - mean)^2 > outlier_threshold^2 * variance`); otherwise nothing. -/
def zScoreOutliers (values : List ℚ) (sources : List String) : List String :=
  let mean_val := listMean values
  let var_val := npVar values
  if 0 < var_val then
    (sources.zip values).filterMap fun p =>
      if outlier_threshold ^ 2 * var_val < (p.2 - mean_val) ^ 2 then some p.1 else none
  else []

/-- `GMPValidator._detect_outliers`: z-score pass, then the IQR pass
(which only records sources not already flagged by the z-score pass),
then the combination rule `if len(outliers) > len(values) // 2` switching
to the IQR list. -/
def detect_outliers (values : List ℚ) (sources : List String) : List String :=
  if values.length < 3 then []
  else
    let outliers := zScoreOutliers values sources
    let q1 := npPercentile values 25
    let q3 := npPercentile values 75
    let iqr := q3 - q1
    let lower_bound := q1 - 3 / 2 * iqr
    let upper_bound := q3 + 3 / 2 * iqr
    let iqr_outliers := (sources.zip values).filterMap fun p =>
      if (p.2 < lower_bound ∨ upper_bound < p.2) ∧ p.1 ∉ outliers then some p.1 else none
    if values.length / 2 < outliers.length then iqr_outliers else outliers

/-- The full IQR-pass outlier set in the sense of the spec's combination
rule: every observation outside `[Q1 - 1.5*IQR, Q3 + 1.5*IQR]` (with no
exclusion of sources already flagged by the z-score pass).  This follows
the spec's words and is compared against `detect_outliers`. -/
def iqrPassOutliers (values : List ℚ) (sources : List String) : List String :=
  let q1 := npPercentile values 25
  let q3 := npPercentile values 75
  let iqr := q3 - q1
  let lower_bound := q1 - 3 / 2 * iqr
  let upper_bound := q3 + 3 / 2 * iqr
  (sources.zip values).filterMap fun p =>
    if p.2 < lower_bound ∨ upper_bound < p.2 then some p.1 else none

/-- Lines 80–86 of `_calculate_validated_gmp`: drop records whose source is
in the outlier list; if fewer than `min_sources` would remain, keep all
records and report no outliers. -/
def applyOutlierFilter (gmp_records : List GMPData) (outliers : List String) :
    List GMPData × List String :=
  let valid := gmp_records.filter fun r => r.source ∉ outliers
  if valid.length < min_sources then (gmp_records, []) else (valid, outliers)

/-- The coefficient-of-variation metric of line 95:
`np.var(valid_values) / (np.mean(valid_values) + 1e-6)`. -/
def covMetric (values : List ℚ) : ℚ :=
  npVar values / (listMean values + 1 / 1000000)

/-- `GMPValidator._calculate_confidence_score`. -/
def calculate_confidence_score (values weights : List ℚ) (variance : ℚ)
    (source_count : ℕ) : ℚ :=
  let source_confidence := min ((source_count : ℚ) / 5) 1
  let variance_confidence := max 0 (1 - variance / max_variance_threshold)
  let weight_confidence := listMean weights
  let time_confidence := 1
  min (3 / 10 * source_confidence + 3 / 10 * variance_confidence +
       1 / 5 * weight_confidence + 1 / 5 * time_confidence) 1

/-- Lines 79–118 of `GMPValidator._calculate_validated_gmp`, with the
already-detected outlier list as an argument: outlier filtering with the
`min_sources` guard, weighted average, variance metric, confidence score,
reliability verdict, and result assembly (with the source's 2- and
3-decimal roundings). -/
def calculate_validated_gmp_from (ipo_id : ℤ) (gmp_records : List GMPData)
    (outliers0 : List String) : GMPValidationResult :=
  let p := applyOutlierFilter gmp_records outliers0
  let valid_records := p.1
  let outliers := p.2
  let valid_values := valid_records.map GMPData.gmp_value
  let valid_weights := valid_records.map fun r => source_weights r.source
  let weighted_gmp := npAverage valid_values valid_weights
  let variance := covMetric valid_values
  let confidence_score :=
    calculate_confidence_score valid_values valid_weights variance valid_records.length
  { ipo_id := ipo_id
    validated_gmp := pythonRound weighted_gmp 2
    confidence_score := pythonRound confidence_score 3
    sources_count := valid_records.length
    is_reliable := decide (min_sources ≤ valid_records.length ∧
      variance ≤ max_variance_threshold ∧ 3 / 5 ≤ confidence_score)
    variance := pythonRound variance 3
    outliers := outliers }

/-- `GMPValidator._calculate_validated_gmp`. -/
def calculate_validated_gmp (ipo_id : ℤ) (gmp_records : List GMPData) :
    GMPValidationResult :=
  calculate_validated_gmp_from ipo_id gmp_records
    (detect_outliers (gmp_records.map GMPData.gmp_value)
      (gmp_records.map GMPData.source))

/-- `GMPValidator.validate_ipo_gmp`, with the records of the 6-hour window
query passed explicitly (the spec's `validate(ipo_key, observations, now)`). -/
def validate_ipo_gmp (ipo_id : ℤ) (gmp_records : List GMPData) :
    GMPValidationResult :=
  if gmp_records.length < min_sources then
    { ipo_id := ipo_id, validated_gmp := 0, confidence_score := 0,
      sources_count := gmp_records.length, is_reliable := false,
      variance := 0, outliers := [] }
  else calculate_validated_gmp ipo_id gmp_records

/-- `GMPValidator.is_gmp_profitable`.  The source's default arguments are
`min_profit_percentage = 10.0`, `min_absolute_profit = 20.0`. -/
def is_gmp_profitable (gmp_value issue_price min_profit_percentage
    min_absolute_profit : ℚ) : Bool :=
  if issue_price ≤ 0 then false
  else
    let percentage_gain := gmp_value / issue_price * 100
    let meets_percentage := decide (min_profit_percentage ≤ percentage_gain)
    let meets_absolute := decide (min_absolute_profit ≤ gmp_value)
    meets_percentage || meets_absolute

/-- The dictionary returned by `GMPValidator.detect_gmp_spike` on a spike. -/
structure SpikeEvent where
  ipo_id : ℤ
  previous_gmp : ℚ
  current_gmp : ℚ
  percentage_change : ℚ
  spike_type : String
  confidence_score : ℚ
deriving DecidableEq, Repr

/-- `GMPValidator.detect_gmp_spike` with its three database query results
passed explicitly: `recent_records` (valid records of the last 24 hours,
only their count is used), `current_records` (the 6-hour window records
consumed by `validate_ipo_gmp` for the current value), and `older_records`
(records older than the 6-hour comparison cutoff, averaged into the
baseline).  The source's default `spike_threshold` is `8.0`. -/
def detect_gmp_spike (ipo_id : ℤ)
    (recent_records current_records older_records : List GMPData)
    (spike_threshold : ℚ) : Option SpikeEvent :=
  if recent_records.length < 2 then none
  else
    let current_validation := validate_ipo_gmp ipo_id current_records
    if older_records.isEmpty then none
    else
      let previous_gmp := listMean (older_records.map GMPData.gmp_value)
      let current_gmp := current_validation.validated_gmp
      if previous_gmp ≤ 0 then none
      else
        let percentage_change := (current_gmp - previous_gmp) / previous_gmp * 100
        if spike_threshold ≤ |percentage_change| then
          some { ipo_id := ipo_id, previous_gmp := previous_gmp,
                 current_gmp := current_gmp,
                 percentage_change := percentage_change,
                 spike_type := if 0 < percentage_change then "increase" else "decrease",
                 confidence_score := current_validation.confidence_score }
        else none

/-- The fields of the IPO dictionaries that
`RealTimeIPOService._remove_duplicates` reads. -/
structure IPODict where
  company : String
  source : String
deriving DecidableEq, Repr

/-- The deduplication key of `_remove_duplicates`:
`ipo['company'].lower().replace(' ', '')`, i.e. the company name
lower-cased with all spaces removed. -/
def ipoCompanyKey (ipo : IPODict) : String :=
  ⟨(ipo.company.data.map Char.toLower).filter fun c => c ≠ ' '⟩

/-- The loop of `RealTimeIPOService._remove_duplicates` with its `seen`
set (modelled as the list of keys added so far). -/
def removeDuplicatesAux : List IPODict → List String → List IPODict
  | [], _ => []
  | ipo :: rest, seen =>
    if ipoCompanyKey ipo ∈ seen then removeDuplicatesAux rest seen
    else ipo :: removeDuplicatesAux rest (ipoCompanyKey ipo :: seen)

/-- `RealTimeIPOService._remove_duplicates`. -/
def remove_duplicates (ipos : List IPODict) : List IPODict :=
  removeDuplicatesAux ipos []

/-- Specification-style first-occurrence deduplication: keep each list
element whose company key has not occurred earlier in the list.  Compared
against `remove_duplicates`. -/
def dedupFirstByKey : List IPODict → List IPODict
  | [] => []
  | ipo :: rest =>
    ipo :: dedupFirstByKey (rest.filter fun y => ipoCompanyKey y ≠ ipoCompanyKey ipo)
termination_by l => l.length
decreasing_by
  simp only [List.length_cons]
  exact Nat.lt_succ_of_le (List.length_filter_le _ _)


/-! ## Claim theorems -/

/-- C4: for every observation set of size below `min_sources` (2),
`validate_ipo_gmp` returns a `GMPValidationResult` with `validated_gmp = 0`,
`confidence_score = 0`, `is_reliable = false`, `sources_count` equal to the
number of observations, and an empty outlier list — a normal return value,
not an error. -/
theorem validate_insufficient_sources (ipo_id : ℤ) (gmp_records : List GMPData)
    (h : gmp_records.length < min_sources) :
    validate_ipo_gmp ipo_id gmp_records =
      { ipo_id := ipo_id, validated_gmp := 0, confidence_score := 0,
        sources_count := gmp_records.length, is_reliable := false,
        variance := 0, outliers := [] } := by
  rw [validate_ipo_gmp, if_pos h]

/-- Witness for C4 at the concrete one-element observation set. -/
theorem validate_insufficient_sources_witness :
    [(⟨"chittorgarh", (10:ℚ)⟩ : GMPData)].length < min_sources ∧
    validate_ipo_gmp 7 [⟨"chittorgarh", 10⟩] =
      { ipo_id := 7, validated_gmp := 0, confidence_score := 0, sources_count := 1,
        is_reliable := false, variance := 0, outliers := [] } :=
  ⟨by decide, validate_insufficient_sources 7 [⟨"chittorgarh", 10⟩] (by decide)⟩

/-- C7: the profitability classifier returns `true` iff the issue price is
positive and (percentage gain at least `min_profit_percentage` OR absolute
gain at least `min_absolute_profit`); a non-positive issue price always
yields `false`; and `gmp = 20`, `issue_price = 1000` is profitable with the
default thresholds `10` and `20` via the absolute criterion alone. -/
theorem is_gmp_profitable_spec :
    (∀ gmp_value issue_price min_pct min_abs : ℚ,
      is_gmp_profitable gmp_value issue_price min_pct min_abs = true ↔
        (0 < issue_price ∧
          (min_pct ≤ gmp_value / issue_price * 100 ∨ min_abs ≤ gmp_value))) ∧
    is_gmp_profitable 20 1000 10 20 = true ∧
    (∀ gmp_value issue_price min_pct min_abs : ℚ, issue_price ≤ 0 →
      is_gmp_profitable gmp_value issue_price min_pct min_abs = false) := by
  refine ⟨fun g ip pp ap => ?_, by norm_num [is_gmp_profitable], fun g ip pp ap h => ?_⟩
  · by_cases h : ip ≤ 0
    · rw [is_gmp_profitable, if_pos h]
      simp [not_lt.mpr h]
    · rw [is_gmp_profitable, if_neg h]
      simp [not_le.mp h]
  · rw [is_gmp_profitable, if_pos h]

/-- Witness for C7 at concrete inputs exercising both the non-positive
issue price branch and the stated `gmp=20, issue_price=1000` case. -/
theorem is_gmp_profitable_spec_witness :
    is_gmp_profitable 20 0 10 20 = false ∧ is_gmp_profitable 20 1000 10 20 = true :=
  ⟨is_gmp_profitable_spec.2.2 20 0 10 20 le_rfl, is_gmp_profitable_spec.2.1⟩

/-- C9: on a batch of exactly two observations, outlier detection is
skipped (`_detect_outliers` needs at least 3 values), so `validate_ipo_gmp`
reports no excluded sources and returns the reliability-weighted mean of
both values (as rounded to 2 decimals by the result assembly), whatever the
two values are. -/
theorem two_source_batch_no_outlier_exclusion (ipo_id : ℤ) (a b : GMPData) :
    (validate_ipo_gmp ipo_id [a, b]).outliers = [] ∧
    (validate_ipo_gmp ipo_id [a, b]).sources_count = 2 ∧
    (validate_ipo_gmp ipo_id [a, b]).validated_gmp =
      pythonRound (npAverage [a.gmp_value, b.gmp_value]
        [source_weights a.source, source_weights b.source]) 2 := by
  have hval : validate_ipo_gmp ipo_id [a, b] = calculate_validated_gmp ipo_id [a, b] := by
    rw [validate_ipo_gmp, if_neg (by simp [min_sources])]
  have hdet : detect_outliers ([a, b].map GMPData.gmp_value)
      ([a, b].map GMPData.source) = [] := by
    rw [detect_outliers, if_pos (by simp)]
  have hfil : applyOutlierFilter [a, b] [] = ([a, b], []) := by
    simp [applyOutlierFilter, min_sources]
  rw [hval, calculate_validated_gmp, hdet, calculate_validated_gmp_from, hfil]
  simp


/-- The observation batch of the spec's outlier-exclusion example: values
`[10, 11, 9, 10, 1000]` reported by 5 distinct sources. -/
def c1_records : List GMPData :=
  [⟨"chittorgarh", 10⟩, ⟨"ipowatch", 11⟩, ⟨"investorgain", 9⟩,
   ⟨"applynse", 10⟩, ⟨"nse", 1000⟩]

/-- Counterexample to C1: on `[10, 11, 9, 10, 1000]` from 5 distinct sources
the source reporting 1000 is NOT excluded, and the validated value is not
the weighted mean of the remaining four values.  (The z-score of 1000 is
792/396.0006… ≈ 1.9999970, not above the threshold 2 — with the population
standard deviation a 5-element sample cannot exceed z = 2 — so the z-score
pass flags nothing, and the IQR flag on 1000 is discarded by the
combination rule, which only adopts the IQR list when the z-score pass
flags more than half of the observations.) -/
theorem c1_counterexample :
    "nse" ∉ (validate_ipo_gmp 1 c1_records).outliers ∧
    (validate_ipo_gmp 1 c1_records).validated_gmp ≠
      pythonRound (npAverage [10, 11, 9, 10] [9/10, 17/20, 4/5, 3/4]) 2 := by
  norm_num [c1_records, validate_ipo_gmp, calculate_validated_gmp,
    calculate_validated_gmp_from, applyOutlierFilter, detect_outliers, zScoreOutliers,
    listMean, npVar, npAverage, npPercentile, covMetric, calculate_confidence_score,
    source_weights_chittorgarh, source_weights_ipowatch, source_weights_investorgain,
    source_weights_applynse, source_weights_nse, source_weights_bse,
    min_sources, max_variance_threshold, outlier_threshold,
    pythonRound, roundHalfEven, List.insertionSort, List.orderedInsert]

/-- C1 amended: on `[10, 11, 9, 10, 1000]` from the 5 distinct sources,
`validate_ipo_gmp` excludes nothing, and the returned `validated_gmp` is
the reliability-weighted mean of all five values (including 1000), namely
240.24 — i.e. the aggregate IS skewed toward 1000. -/
theorem c1_amended :
    (validate_ipo_gmp 1 c1_records).outliers = [] ∧
    (validate_ipo_gmp 1 c1_records).validated_gmp =
      pythonRound (npAverage [10, 11, 9, 10, 1000] [9/10, 17/20, 4/5, 3/4, 1]) 2 ∧
    (validate_ipo_gmp 1 c1_records).validated_gmp = 6006/25 := by
  norm_num [c1_records, validate_ipo_gmp, calculate_validated_gmp,
    calculate_validated_gmp_from, applyOutlierFilter, detect_outliers, zScoreOutliers,
    listMean, npVar, npAverage, npPercentile, covMetric, calculate_confidence_score,
    source_weights_chittorgarh, source_weights_ipowatch, source_weights_investorgain,
    source_weights_applynse, source_weights_nse, source_weights_bse,
    min_sources, max_variance_threshold, outlier_threshold,
    pythonRound, roundHalfEven, List.insertionSort, List.orderedInsert]

/-- A two-source batch whose mean is a tiny negative number
(`-10^-7`, strictly between `-ε = -10^-6` and `0`). -/
def c10_records : List GMPData :=
  [⟨"chittorgarh", 1/1000⟩, ⟨"ipowatch", -10002/10000000⟩]

/-- Counterexample to C10: a retained observation set with negative mean
(`-10^-7`) whose variance metric is strictly positive (≈ 1.111, since the
denominator `mean + 1e-6` is still positive), exceeds
`max_variance_threshold = 0.3`, and makes the batch unreliable — so a
negative mean does not force the variance metric non-positive, and the
variance gate CAN fail on a negative-mean batch. -/
theorem c10_counterexample :
    listMean (c10_records.map GMPData.gmp_value) < 0 ∧
    0 < covMetric (c10_records.map GMPData.gmp_value) ∧
    ¬ covMetric (c10_records.map GMPData.gmp_value) ≤ max_variance_threshold ∧
    (validate_ipo_gmp 1 c10_records).is_reliable = false := by
  norm_num [c10_records, validate_ipo_gmp, calculate_validated_gmp,
    calculate_validated_gmp_from, applyOutlierFilter, detect_outliers, zScoreOutliers,
    listMean, npVar, npAverage, npPercentile, covMetric, calculate_confidence_score,
    source_weights_chittorgarh, source_weights_ipowatch,
    min_sources, max_variance_threshold, outlier_threshold,
    pythonRound, roundHalfEven]

/-- C10 amended: whenever the mean of the retained values is below `-ε`
(i.e. `mean + 1e-6 < 0`), the variance metric
`npVar / (mean + 1e-6)` is non-positive, hence the
`variance ≤ max_variance_threshold` conjunct of `is_reliable` holds.  (For
negative means in `(-1e-6, 0)` this fails, per the counterexample.) -/
theorem c10_amended (values : List ℚ) (h : listMean values < -(1/1000000)) :
    covMetric values ≤ 0 ∧ covMetric values ≤ max_variance_threshold := by
  have hvar : 0 ≤ npVar values := by
    apply div_nonneg _ (Nat.cast_nonneg _)
    apply List.sum_nonneg
    intro x hx
    obtain ⟨v, hv, rfl⟩ := List.mem_map.mp hx
    positivity
  have hd : listMean values + 1 / 1000000 ≤ 0 := by linarith
  have key : covMetric values ≤ 0 := by
    rw [covMetric]
    exact div_nonpos_of_nonneg_of_nonpos hvar hd
  exact ⟨key, key.trans (by norm_num [max_variance_threshold])⟩

/-- Witness for the amended C10 at the concrete batch `[-10, -20]`. -/
theorem c10_amended_witness :
    listMean [(-10 : ℚ), -20] < -(1/1000000) ∧
    covMetric [(-10 : ℚ), -20] ≤ 0 ∧
    covMetric [(-10 : ℚ), -20] ≤ max_variance_threshold := by
  have h : listMean [(-10 : ℚ), -20] < -(1/1000000) := by norm_num [listMean]
  exact ⟨h, c10_amended [(-10 : ℚ), -20] h⟩

/-- Counterexample to C3: two observations for the same company from two
DIFFERENT sources are not both retained by `_remove_duplicates` — only the
first occurrence of the company key survives. -/
theorem c3_counterexample :
    remove_duplicates [⟨"acme", "chittorgarh"⟩, ⟨"acme", "nse"⟩] =
      [⟨"acme", "chittorgarh"⟩] ∧
    (⟨"acme", "nse"⟩ : IPODict) ∉
      remove_duplicates [⟨"acme", "chittorgarh"⟩, ⟨"acme", "nse"⟩] := by
  decide

theorem removeDuplicatesAux_eq_dedupFirst (l : List IPODict) :
    ∀ seen : List String, removeDuplicatesAux l seen =
      dedupFirstByKey (l.filter fun y => ipoCompanyKey y ∉ seen) := by
  induction l with
  | nil => intro seen; simp [removeDuplicatesAux, dedupFirstByKey]
  | cons x xs ih =>
    intro seen
    by_cases hx : ipoCompanyKey x ∈ seen
    · simp only [removeDuplicatesAux]
      rw [if_pos hx, ih seen, List.filter_cons]
      simp [hx]
    · simp only [removeDuplicatesAux]
      rw [if_neg hx, ih, List.filter_cons]
      have hxd : decide (ipoCompanyKey x ∉ seen) = true := by simp [hx]
      rw [hxd, if_pos rfl]
      rw [dedupFirstByKey]
      congr 1
      rw [List.filter_filter]
      congr 1
      apply List.filter_congr
      intro y hy
      by_cases h1 : ipoCompanyKey y ∈ seen <;>
        by_cases h2 : ipoCompanyKey y = ipoCompanyKey x <;>
          simp [h1, h2, List.mem_cons]

/-- C3 amended: after merging, deduplication keeps exactly the FIRST
observation (in merged-list order) for each company key (company name
lower-cased with spaces removed) and drops every later observation with
the same key, whether it comes from the same source or a different one. -/
theorem remove_duplicates_eq_first_occurrences (ipos : List IPODict) :
    remove_duplicates ipos = dedupFirstByKey ipos := by
  rw [remove_duplicates, removeDuplicatesAux_eq_dedupFirst]
  congr 1
  simp

/-- C6: the guard of `_calculate_validated_gmp` — if removing the outlier
set would leave fewer than `min_sources` records, the outlier step is
discarded entirely: all records are retained, the reported outlier list is
empty, and the validated value is the weighted mean over the full set. -/
theorem outlier_guard_keeps_all (ipo_id : ℤ) (gmp_records : List GMPData)
    (outliers : List String)
    (h : (gmp_records.filter fun r => r.source ∉ outliers).length < min_sources) :
    (calculate_validated_gmp_from ipo_id gmp_records outliers).outliers = [] ∧
    (calculate_validated_gmp_from ipo_id gmp_records outliers).sources_count =
      gmp_records.length ∧
    (calculate_validated_gmp_from ipo_id gmp_records outliers).validated_gmp =
      pythonRound (npAverage (gmp_records.map GMPData.gmp_value)
        (gmp_records.map fun r => source_weights r.source)) 2 := by
  have hfil : applyOutlierFilter gmp_records outliers = (gmp_records, []) := by
    simp only [applyOutlierFilter]
    rw [if_pos h]
  rw [calculate_validated_gmp_from, hfil]
  simp

/-- Witness for C6: three records of which two are flagged as outliers,
leaving one — below `min_sources` — so all three are kept. -/
theorem outlier_guard_keeps_all_witness :
    ((([⟨"a", 1⟩, ⟨"b", 2⟩, ⟨"c", 3⟩] : List GMPData).filter
      fun r => r.source ∉ ["b", "c"]).length < min_sources) ∧
    ((calculate_validated_gmp_from 1 [⟨"a", 1⟩, ⟨"b", 2⟩, ⟨"c", 3⟩] ["b", "c"]).outliers = [] ∧
     (calculate_validated_gmp_from 1 [⟨"a", 1⟩, ⟨"b", 2⟩, ⟨"c", 3⟩] ["b", "c"]).sources_count = 3 ∧
     (calculate_validated_gmp_from 1 [⟨"a", 1⟩, ⟨"b", 2⟩, ⟨"c", 3⟩] ["b", "c"]).validated_gmp =
       pythonRound (npAverage (([⟨"a", 1⟩, ⟨"b", 2⟩, ⟨"c", 3⟩] : List GMPData).map GMPData.gmp_value)
         (([⟨"a", 1⟩, ⟨"b", 2⟩, ⟨"c", 3⟩] : List GMPData).map fun r => source_weights r.source)) 2) :=
  ⟨by decide, outlier_guard_keeps_all 1 [⟨"a", 1⟩, ⟨"b", 2⟩, ⟨"c", 3⟩] ["b", "c"] (by decide)⟩


/-- Counterexample to C8: with only one (fewer than 2) valid records in the
24-hour window, `detect_gmp_spike` returns no event even though a baseline
exists (`[20]`, mean 20 > 0) and the percentage change (50%) is far above
the threshold 8 — so the claimed "if and only if" condition is incomplete. -/
theorem c8_counterexample :
    detect_gmp_spike 1 [⟨"a", 1⟩] [⟨"chittorgarh", 30⟩, ⟨"nse", 30⟩] [⟨"x", 20⟩] 8 = none ∧
    ([(⟨"x", 20⟩ : GMPData)] : List GMPData) ≠ [] ∧
    0 < listMean ([(⟨"x", 20⟩ : GMPData)].map GMPData.gmp_value) ∧
    (8 : ℚ) ≤ |((validate_ipo_gmp 1 [⟨"chittorgarh", 30⟩, ⟨"nse", 30⟩]).validated_gmp -
        listMean ([(⟨"x", 20⟩ : GMPData)].map GMPData.gmp_value)) /
        listMean ([(⟨"x", 20⟩ : GMPData)].map GMPData.gmp_value) * 100| := by
  refine ⟨by rw [detect_gmp_spike, if_pos (by simp)], by simp, by norm_num [listMean], ?_⟩
  norm_num [validate_ipo_gmp, calculate_validated_gmp, calculate_validated_gmp_from,
    applyOutlierFilter, detect_outliers, zScoreOutliers, listMean, npVar, npAverage,
    npPercentile, covMetric, calculate_confidence_score,
    source_weights_chittorgarh, source_weights_nse,
    min_sources, max_variance_threshold, outlier_threshold,
    pythonRound, roundHalfEven, abs_of_pos]

/-- C8 amended: `detect_gmp_spike` emits an event iff the 24-hour window
holds at least 2 valid records AND a baseline exists AND the baseline mean
is strictly positive AND `|percentage_change| ≥ spike_threshold`; when an
event is emitted its direction is "increase" for a positive change and
"decrease" for a negative one; a missing baseline or a non-positive
baseline yields `none`, not an error. -/
theorem detect_gmp_spike_spec (ipo_id : ℤ)
    (recent_records current_records older_records : List GMPData)
    (spike_threshold : ℚ) :
    ((detect_gmp_spike ipo_id recent_records current_records older_records
        spike_threshold).isSome = true ↔
      (2 ≤ recent_records.length ∧ older_records ≠ [] ∧
        0 < listMean (older_records.map GMPData.gmp_value) ∧
        spike_threshold ≤ |((validate_ipo_gmp ipo_id current_records).validated_gmp -
            listMean (older_records.map GMPData.gmp_value)) /
            listMean (older_records.map GMPData.gmp_value) * 100|)) ∧
    (∀ e, detect_gmp_spike ipo_id recent_records current_records older_records
        spike_threshold = some e →
      (0 < e.percentage_change → e.spike_type = "increase") ∧
      (e.percentage_change < 0 → e.spike_type = "decrease")) := by
  rw [detect_gmp_spike]
  by_cases h1 : recent_records.length < 2
  · rw [if_pos h1]
    refine ⟨by simp; omega, fun e he => by simp at he⟩
  · rw [if_neg h1]
    by_cases h2 : older_records.isEmpty
    · rw [if_pos h2]
      simp only [List.isEmpty_iff] at h2
      refine ⟨by simp [h2], fun e he => by simp at he⟩
    · rw [if_neg h2]
      simp only [List.isEmpty_iff] at h2
      by_cases h3 : listMean (older_records.map GMPData.gmp_value) ≤ 0
      · rw [if_pos h3]
        refine ⟨by simp [not_lt.mpr h3], fun e he => by simp at he⟩
      · rw [if_neg h3]
        by_cases h4 : spike_threshold ≤
            |((validate_ipo_gmp ipo_id current_records).validated_gmp -
              listMean (older_records.map GMPData.gmp_value)) /
              listMean (older_records.map GMPData.gmp_value) * 100|
        · rw [if_pos h4]
          constructor
          · simp only [Option.isSome_some, true_iff]
            exact ⟨by omega, h2, not_le.mp h3, h4⟩
          · intro e he
            rw [Option.some.injEq] at he
            subst he
            by_cases hp : 0 <
                ((validate_ipo_gmp ipo_id current_records).validated_gmp -
                  listMean (older_records.map GMPData.gmp_value)) /
                  listMean (older_records.map GMPData.gmp_value) * 100
            · exact ⟨fun _ => if_pos hp, fun h => absurd h (asymm hp)⟩
            · exact ⟨fun h => absurd h hp, fun _ => if_neg hp⟩
        · rw [if_neg h4]
          refine ⟨⟨fun hfalse => absurd hfalse (by simp),
            fun hr => absurd hr.2.2.2 h4⟩, fun e he => by simp at he⟩

/-- Witness for the amended C8: two recent records, a current validated
value of 30 from two agreeing sources, a baseline of 20, threshold 8 —
a 50% increase, so an event is emitted with direction "increase". -/
theorem detect_gmp_spike_spec_witness :
    (detect_gmp_spike 1 [⟨"a", 1⟩, ⟨"b", 2⟩] [⟨"chittorgarh", 30⟩, ⟨"nse", 30⟩]
        [⟨"x", 20⟩] 8).isSome = true ∧
    ((0 < (⟨1, 20, 30, 50, "increase", 81/100⟩ : SpikeEvent).percentage_change →
        (⟨1, 20, 30, 50, "increase", 81/100⟩ : SpikeEvent).spike_type = "increase") ∧
     ((⟨1, 20, 30, 50, "increase", 81/100⟩ : SpikeEvent).percentage_change < 0 →
        (⟨1, 20, 30, 50, "increase", 81/100⟩ : SpikeEvent).spike_type = "decrease")) := by
  have hsome : detect_gmp_spike 1 [⟨"a", 1⟩, ⟨"b", 2⟩] [⟨"chittorgarh", 30⟩, ⟨"nse", 30⟩]
      [⟨"x", 20⟩] 8 = some ⟨1, 20, 30, 50, "increase", 81/100⟩ := by
    norm_num [detect_gmp_spike, validate_ipo_gmp, calculate_validated_gmp,
      calculate_validated_gmp_from, applyOutlierFilter, detect_outliers, zScoreOutliers,
      listMean, npVar, npAverage, npPercentile, covMetric, calculate_confidence_score,
      source_weights_chittorgarh, source_weights_nse,
      min_sources, max_variance_threshold, outlier_threshold,
      pythonRound, roundHalfEven, abs_of_pos]
  exact ⟨by rw [hsome]; rfl,
    (detect_gmp_spike_spec 1 [⟨"a", 1⟩, ⟨"b", 2⟩] [⟨"chittorgarh", 30⟩, ⟨"nse", 30⟩]
      [⟨"x", 20⟩] 8).2 ⟨1, 20, 30, 50, "increase", 81/100⟩ hsome⟩


theorem const_mul_length_le_map_sum (c : ℚ) (f : ℚ → ℚ) :
    ∀ l : List ℚ, (∀ x ∈ l, c ≤ f x) → c * l.length ≤ (l.map f).sum := by
  intro l
  induction l with
  | nil => simp
  | cons x xs ih =>
    intro h
    have hx := h x (by simp)
    have hxs := ih fun y hy => h y (by simp [hy])
    simp only [List.map_cons, List.sum_cons, List.length_cons]
    push_cast
    nlinarith [hx, hxs]

theorem map_filter_sum_le (p : ℚ → Bool) (f : ℚ → ℚ) :
    ∀ l : List ℚ, (∀ x ∈ l, 0 ≤ f x) → ((l.filter p).map f).sum ≤ (l.map f).sum := by
  intro l
  induction l with
  | nil => simp
  | cons x xs ih =>
    intro h
    have hx := h x (by simp)
    have hxs := ih fun y hy => h y (by simp [hy])
    rw [List.filter_cons]
    by_cases hp : p x
    · simp only [hp, if_pos, List.map_cons, List.sum_cons]
      linarith
    · simp only [hp, Bool.false_eq_true, if_neg, List.map_cons, List.sum_cons,
        not_false_iff]
      linarith

theorem zip_ite_filterMap_length (C : ℚ → Prop) [DecidablePred C] :
    ∀ (ss : List String) (vs : List ℚ), ss.length = vs.length →
      ((ss.zip vs).filterMap fun p => if C p.2 then some p.1 else none).length =
        (vs.filter fun v => decide (C v)).length := by
  intro ss
  induction ss with
  | nil =>
    intro vs h
    cases vs with
    | nil => simp
    | cons v vs => simp at h
  | cons s ss ih =>
    intro vs h
    cases vs with
    | nil => simp at h
    | cons v vs =>
      simp only [List.zip_cons_cons, List.filterMap_cons, List.filter_cons]
      by_cases hc : C v
      · simp [hc, ih vs (by simpa using h)]
      · simp [hc, ih vs (by simpa using h)]

/-- Chebyshev-style bound on the z-score pass: since the squared deviations
sum to `n * variance` and every flagged value has squared deviation above
`4 * variance`, fewer than `n/4` values can be flagged — in particular never
more than `n // 2`.  Hence the combination rule of `_detect_outliers` can
never actually switch to the IQR list. -/
theorem zScoreOutliers_length_le_half (values : List ℚ) (sources : List String)
    (hlen : sources.length = values.length) :
    (zScoreOutliers values sources).length ≤ values.length / 2 := by
  rw [zScoreOutliers]
  by_cases hv : 0 < npVar values
  · rw [if_pos hv]
    rw [zip_ite_filterMap_length
      (fun v => outlier_threshold ^ 2 * npVar values < (v - listMean values) ^ 2)
      sources values hlen]
    have hne : values ≠ [] := by
      rintro rfl
      norm_num [npVar] at hv
    have hn : 0 < values.length := List.length_pos.mpr hne
    have hnne : (values.length : ℚ) ≠ 0 := Nat.cast_ne_zero.mpr hn.ne'
    have hsum : ((values.map fun v => (v - listMean values) ^ 2).sum) =
        npVar values * values.length := by
      rw [npVar, div_mul_cancel₀ _ hnne]
    have h1 : (outlier_threshold ^ 2 * npVar values) *
        (((values.filter fun v =>
          decide (outlier_threshold ^ 2 * npVar values <
            (v - listMean values) ^ 2)).length : ℚ)) ≤
        (((values.filter fun v =>
          decide (outlier_threshold ^ 2 * npVar values <
            (v - listMean values) ^ 2)).map fun v => (v - listMean values) ^ 2).sum) := by
      apply const_mul_length_le_map_sum
      intro x hx
      have hmem := List.of_mem_filter hx
      exact le_of_lt (of_decide_eq_true hmem)
    have h2 : (((values.filter fun v =>
        decide (outlier_threshold ^ 2 * npVar values <
          (v - listMean values) ^ 2)).map fun v => (v - listMean values) ^ 2).sum) ≤
        ((values.map fun v => (v - listMean values) ^ 2).sum) :=
      map_filter_sum_le _ _ values (fun x _ => sq_nonneg _)
    have h3 := h1.trans (h2.trans_eq hsum)
    have h4 : (4 : ℚ) * (((values.filter fun v =>
        decide (outlier_threshold ^ 2 * npVar values <
          (v - listMean values) ^ 2)).length : ℚ)) ≤ (values.length : ℚ) := by
      refine (mul_le_mul_left hv).mp ?_
      calc npVar values * ((4 : ℚ) * (((values.filter fun v =>
              decide (outlier_threshold ^ 2 * npVar values <
                (v - listMean values) ^ 2)).length : ℚ)))
          = (outlier_threshold ^ 2 * npVar values) *
            (((values.filter fun v =>
              decide (outlier_threshold ^ 2 * npVar values <
                (v - listMean values) ^ 2)).length : ℚ)) := by
            rw [outlier_threshold]; ring
        _ ≤ npVar values * values.length := h3
    have h5 : 4 * (values.filter fun v =>
        decide (outlier_threshold ^ 2 * npVar values <
          (v - listMean values) ^ 2)).length ≤ values.length := by
      exact_mod_cast h4
    omega
  · rw [if_neg hv]
    simp

/-- C2: for every batch on which outlier detection runs (at least 3 values,
sources aligned with values), if the z-score pass flags more than half of
the observations then `_detect_outliers` returns the full IQR-pass outlier
set, and otherwise it returns the z-score pass result.  (The first branch
is provably unreachable: by `zScoreOutliers_length_le_half` the z-score
pass never flags more than `n // 2` observations, so the detector always
returns the z-score pass result.) -/
theorem detect_outliers_combination_rule (values : List ℚ) (sources : List String)
    (hlen : sources.length = values.length) (h3 : 3 ≤ values.length) :
    (values.length / 2 < (zScoreOutliers values sources).length →
      detect_outliers values sources = iqrPassOutliers values sources) ∧
    (¬ values.length / 2 < (zScoreOutliers values sources).length →
      detect_outliers values sources = zScoreOutliers values sources) := by
  have hhalf := zScoreOutliers_length_le_half values sources hlen
  refine ⟨fun hcond => absurd hcond (by omega), fun hcond => ?_⟩
  simp only [detect_outliers]
  rw [if_neg (by omega : ¬ values.length < 3), if_neg hcond]

/-- Witness for C2 on the concrete batch `[1, 2, 3]` from sources
`["a", "b", "c"]`: the z-score pass flags nothing, the combination
condition is false, and the detector returns the z-score pass result. -/
theorem detect_outliers_combination_rule_witness :
    detect_outliers [(1:ℚ), 2, 3] ["a", "b", "c"] =
      zScoreOutliers [(1:ℚ), 2, 3] ["a", "b", "c"] ∧
    zScoreOutliers [(1:ℚ), 2, 3] ["a", "b", "c"] = [] := by
  have hz : zScoreOutliers [(1:ℚ), 2, 3] ["a", "b", "c"] = [] := by
    norm_num [zScoreOutliers, listMean, npVar, outlier_threshold]
  have h := (detect_outliers_combination_rule [(1:ℚ), 2, 3] ["a", "b", "c"]
    rfl (by norm_num)).2
  exact ⟨h (by simp [hz]), hz⟩


theorem source_weights_pos (s : String) : 0 < source_weights s := by
  rw [source_weights]
  split_ifs <;> norm_num

theorem sum_const_of_all_eq (v : ℚ) :
    ∀ l : List ℚ, (∀ x ∈ l, x = v) → l.sum = v * l.length := by
  intro l
  induction l with
  | nil => simp
  | cons x xs ih =>
    intro h
    have hx := h x (by simp)
    have hxs := ih fun y hy => h y (by simp [hy])
    simp only [List.sum_cons, List.length_cons, hx, hxs]
    push_cast
    ring

theorem listMean_const (v : ℚ) (l : List ℚ) (hne : l ≠ []) (h : ∀ x ∈ l, x = v) :
    listMean l = v := by
  have hnne : (l.length : ℚ) ≠ 0 :=
    Nat.cast_ne_zero.mpr (List.length_pos.mpr hne).ne'
  rw [listMean, sum_const_of_all_eq v l h, mul_div_cancel_right₀ _ hnne]

theorem npVar_const (v : ℚ) (l : List ℚ) (hne : l ≠ []) (h : ∀ x ∈ l, x = v) :
    npVar l = 0 := by
  rw [npVar]
  have hz : ∀ y ∈ l.map fun x => (x - listMean l) ^ 2, y = 0 := by
    intro y hy
    obtain ⟨x, hx, rfl⟩ := List.mem_map.mp hy
    rw [h x hx, listMean_const v l hne h]
    ring
  rw [sum_const_of_all_eq 0 _ hz]
  simp

theorem zip_mul_sum_const (v : ℚ) :
    ∀ (xs ws : List ℚ), xs.length = ws.length → (∀ x ∈ xs, x = v) →
      ((xs.zip ws).map fun p => p.1 * p.2).sum = v * ws.sum := by
  intro xs
  induction xs with
  | nil =>
    intro ws h _
    cases ws with
    | nil => simp
    | cons w ws => simp at h
  | cons x xs ih =>
    intro ws h hx
    cases ws with
    | nil => simp at h
    | cons w ws =>
      simp only [List.zip_cons_cons, List.map_cons, List.sum_cons]
      rw [hx x (by simp), ih ws (by simpa using h) (fun y hy => hx y (by simp [hy]))]
      ring

/-- C5: for every batch of at least `min_sources` observations that all
carry the same value `v`, `validate_ipo_gmp` returns `validated_gmp`
equal to that common value (under the code's 2-decimal output rounding,
which is the identity whenever `v` has at most two decimal places),
`variance = 0`, and `is_reliable = true`. -/
theorem zero_variance_batch (ipo_id : ℤ) (gmp_records : List GMPData) (v : ℚ)
    (h2 : min_sources ≤ gmp_records.length)
    (hall : ∀ r ∈ gmp_records, r.gmp_value = v) :
    (validate_ipo_gmp ipo_id gmp_records).validated_gmp = pythonRound v 2 ∧
    (validate_ipo_gmp ipo_id gmp_records).variance = 0 ∧
    (validate_ipo_gmp ipo_id gmp_records).is_reliable = true := by
  have hne : gmp_records ≠ [] := by
    rintro rfl
    simp [min_sources] at h2
  have hvne : gmp_records.map GMPData.gmp_value ≠ [] := by
    simp [hne]
  have hvals : ∀ x ∈ gmp_records.map GMPData.gmp_value, x = v := by
    intro x hx
    obtain ⟨r, hr, rfl⟩ := List.mem_map.mp hx
    exact hall r hr
  have h2n : 2 ≤ gmp_records.length := h2
  have hdet : detect_outliers (gmp_records.map GMPData.gmp_value)
      (gmp_records.map GMPData.source) = [] := by
    by_cases hlen3 : (gmp_records.map GMPData.gmp_value).length < 3
    · rw [detect_outliers, if_pos hlen3]
    · have hz : zScoreOutliers (gmp_records.map GMPData.gmp_value)
          (gmp_records.map GMPData.source) = [] := by
        rw [zScoreOutliers, npVar_const v _ hvne hvals]
        simp
      simp only [detect_outliers]
      rw [if_neg hlen3, hz]
      rw [if_neg (by simp)]
  have hval : validate_ipo_gmp ipo_id gmp_records =
      calculate_validated_gmp ipo_id gmp_records := by
    rw [validate_ipo_gmp, if_neg (Nat.not_lt.mpr h2)]
  have hft : gmp_records.filter (fun r => r.source ∉ ([] : List String)) =
      gmp_records := by
    apply List.filter_eq_self.mpr
    intro a _
    simp
  have hfil : applyOutlierFilter gmp_records [] = (gmp_records, []) := by
    simp only [applyOutlierFilter, hft]
    rw [if_neg (Nat.not_lt.mpr h2)]
  have hcov : covMetric (gmp_records.map GMPData.gmp_value) = 0 := by
    rw [covMetric, npVar_const v _ hvne hvals, zero_div]
  have havg : npAverage (gmp_records.map GMPData.gmp_value)
      (gmp_records.map fun r => source_weights r.source) = v := by
    rw [npAverage]
    rw [zip_mul_sum_const v (gmp_records.map GMPData.gmp_value)
      (gmp_records.map fun r => source_weights r.source) (by simp) hvals]
    have hwpos : 0 < (gmp_records.map fun r => source_weights r.source).sum := by
      apply List.sum_pos
      · intro x hx
        obtain ⟨r, _, rfl⟩ := List.mem_map.mp hx
        exact source_weights_pos _
      · simp [hne]
    exact mul_div_cancel_right₀ v hwpos.ne'
  have hw0 : 0 ≤ listMean (gmp_records.map fun r => source_weights r.source) := by
    rw [listMean]
    apply div_nonneg _ (Nat.cast_nonneg _)
    apply List.sum_nonneg
    intro x hx
    obtain ⟨r, _, rfl⟩ := List.mem_map.mp hx
    exact (source_weights_pos _).le
  have hconf : 3 / 5 ≤ calculate_confidence_score
      (gmp_records.map GMPData.gmp_value)
      (gmp_records.map fun r => source_weights r.source)
      (covMetric (gmp_records.map GMPData.gmp_value)) gmp_records.length := by
    rw [hcov]
    simp only [calculate_confidence_score]
    have hsc : (2 : ℚ) / 5 ≤ min ((gmp_records.length : ℚ) / 5) 1 := by
      apply le_min _ (by norm_num)
      have hlen : (2 : ℚ) ≤ (gmp_records.length : ℚ) := by exact_mod_cast h2n
      linarith
    have hvc : max 0 (1 - 0 / max_variance_threshold) = 1 := by
      norm_num [max_variance_threshold]
    rw [hvc]
    apply le_min _ (by norm_num)
    linarith [hsc, hw0]
  rw [hval, calculate_validated_gmp, hdet, calculate_validated_gmp_from, hfil]
  refine ⟨?_, ?_, ?_⟩
  · show pythonRound (npAverage (gmp_records.map GMPData.gmp_value)
      (gmp_records.map fun r => source_weights r.source)) 2 = pythonRound v 2
    rw [havg]
  · show pythonRound (covMetric (gmp_records.map GMPData.gmp_value)) 3 = 0
    rw [hcov]
    norm_num [pythonRound, roundHalfEven]
  · show decide (min_sources ≤ gmp_records.length ∧
      covMetric (gmp_records.map GMPData.gmp_value) ≤ max_variance_threshold ∧
      3 / 5 ≤ calculate_confidence_score (gmp_records.map GMPData.gmp_value)
        (gmp_records.map fun r => source_weights r.source)
        (covMetric (gmp_records.map GMPData.gmp_value)) gmp_records.length) = true
    simp only [decide_eq_true_eq]
    refine ⟨h2, ?_, hconf⟩
    rw [hcov]
    norm_num [max_variance_threshold]

/-- Witness for C5 at the concrete batch of two observations both equal to
10, from sources `chittorgarh` and `nse`. -/
theorem zero_variance_batch_witness :
    min_sources ≤ ([⟨"chittorgarh", (10:ℚ)⟩, ⟨"nse", 10⟩] : List GMPData).length ∧
    ((validate_ipo_gmp 1 [⟨"chittorgarh", 10⟩, ⟨"nse", 10⟩]).validated_gmp =
        pythonRound 10 2 ∧
      (validate_ipo_gmp 1 [⟨"chittorgarh", 10⟩, ⟨"nse", 10⟩]).variance = 0 ∧
      (validate_ipo_gmp 1 [⟨"chittorgarh", 10⟩, ⟨"nse", 10⟩]).is_reliable = true) :=
  ⟨by decide, zero_variance_batch 1 [⟨"chittorgarh", 10⟩, ⟨"nse", 10⟩] 10
    (by decide) (by decide)⟩

end IPO
